import Mathlib

/-!
Shallow embedding of the Discord example bot (src/main.py, src/bot/__main__.py,
src/bot/example.py).

Python strings are modelled as `List Char`.  The interaction state held by
`ComponentView` (an accumulated text string plus the list of UI items attached
to the view) is modelled by the structure `ComponentView` below; the three
event handlers (`dropdown_selected`, `MyButton.callback`, `MyModal.on_submit`)
become pure transition functions on that structure.  The `sync` command's
per-guild loop and the configuration check `assert_envs_exist` are embedded
with explicit error channels (`Except`) in place of Python exceptions.
-/

/-- The values of the fixed dropdown options built by `SELECT_OPTIONS` in
src/bot/example.py: `Value1`, `Value2`, `Value3`. -/
def SELECT_OPTION_VALUES : List (List Char) :=
  ["Value1".data, "Value2".data, "Value3".data]

/-- Python `sep.join(xs)` on strings. -/
def joinSep (sep : List Char) : List (List Char) → List Char
  | [] => []
  | [x] => x
  | x :: y :: xs => x ++ sep ++ joinSep sep (y :: xs)

/-- The UI items that can appear among a `ComponentView`'s children: the
dropdown added by the `ui.select` decorator, and the three buttons created in
`ComponentView.__init__` (labelled `Button1`, `Button2`, `Button3`). -/
inductive Widget
  | dropdown
  | button1
  | button2
  | button3
  deriving DecidableEq

/-- The display names of the three buttons created in
`ComponentView.__init__` (each `MyButton.name`). -/
def BUTTON_NAMES : List (List Char) :=
  ["Button1".data, "Button2".data, "Button3".data]

/-- The full widget set a view can reach: the dropdown plus the three fixed
buttons. -/
def ALL_WIDGETS : List Widget :=
  [Widget.dropdown, Widget.button1, Widget.button2, Widget.button3]

/-- The mutable state of one `ComponentView` instance: the accumulated text
(`self.text`) and the ordered list of items attached to the view
(`self.children`). -/
structure ComponentView where
  text : List Char
  children : List Widget
  deriving DecidableEq

/-- The fresh state built by `ComponentView.__init__`: empty text; the
`ui.select` decorator has already placed the dropdown among the view's
children; the three buttons exist but are not attached. -/
def ComponentView.init : ComponentView :=
  { text := [], children := [Widget.dropdown] }

/-- Embeds `ComponentView.add_button_to_view`: attach `b` unless it is already
among the view's children. -/
def ComponentView.add_button_to_view (v : ComponentView) (b : Widget) :
    ComponentView :=
  if b ∈ v.children then v else { v with children := v.children ++ [b] }

/-- Embeds `ComponentView.dropdown_selected`: reset the text to the
comma-joined selected values followed by the fixed suffix, then attach the
three buttons (idempotently, in order). -/
def ComponentView.dropdown_selected (v : ComponentView)
    (values : List (List Char)) : ComponentView :=
  let v := { v with
    text := joinSep ", ".data values ++ " selected in select option".data }
  ((v.add_button_to_view Widget.button1).add_button_to_view
      Widget.button2).add_button_to_view Widget.button3

/-- Embeds `MyButton.callback` for a button named `name`: append
a newline, a space, and the line naming the pressed button. -/
def ComponentView.button_callback (v : ComponentView) (name : List Char) :
    ComponentView :=
  { v with text := v.text ++ '\n' :: ' ' :: (name ++ " was pressed!".data) }

/-- Embeds `MyModal.on_submit` for a submitted text `value`: append a newline,
a space, and the line embedding the value. -/
def ComponentView.modal_on_submit (v : ComponentView) (value : List Char) :
    ComponentView :=
  { v with text := v.text ++ '\n' :: ' ' ::
      ("Modal was called and value entered is ".data ++ value) }

/-- One step of splitting text on newline characters, folded from the right:
a newline opens a fresh first line, any other character extends the current
first line. -/
def addChar (c : Char) (acc : List (List Char)) : List (List Char) :=
  if c = '\n' then [] :: acc
  else
    match acc with
    | [] => [[c]]
    | l :: ls => (c :: l) :: ls

/-- Splits a character sequence into its newline-separated parts. -/
def splitNl (cs : List Char) : List (List Char) :=
  cs.foldr addChar [[]]

/-- The newline-separated lines of a view's accumulated text; the fresh empty
text has no lines. -/
def textLog (v : ComponentView) : List (List Char) :=
  if v.text = [] then [] else splitNl v.text

/-- The interaction events delivered to a `ComponentView`: a dropdown
selection, a button press, and a modal submission. -/
inductive Event
  | select (values : List (List Char))
  | press (name : List Char)
  | submit (value : List Char)

/-- Dispatches one interaction event to its handler. -/
def stepView (v : ComponentView) : Event → ComponentView
  | Event.select values => v.dropdown_selected values
  | Event.press name => v.button_callback name
  | Event.submit value => v.modal_on_submit value

/-- Runs a sequence of interaction events against a fresh view, as created by
the `start` command. -/
def runView (es : List Event) : ComponentView :=
  es.foldl stepView ComponentView.init

/-- Outcome of one per-guild `tree.sync` push attempt: success, or the
platform raised an HTTP error. -/
inductive PushOutcome
  | ok
  | httpError
  deriving DecidableEq

/-- Embeds `ctx.bot.tree.sync(guild=guild)` with its explicit error channel:
a failing attempt surfaces as `Except.error`. -/
def tree_sync (o : PushOutcome) : Except Unit Unit :=
  match o with
  | PushOutcome.ok => Except.ok ()
  | PushOutcome.httpError => Except.error ()

/-- Embeds one iteration of the explicit-guild loop of `CoreCog.sync`:
`try: sync; except HTTPException: pass; else: ret += 1`.  The error is always
consumed, so no exception escapes the loop body. -/
def guild_sync_step (ret : Nat) (o : PushOutcome) : Nat :=
  match tree_sync o with
  | Except.error _ => ret
  | Except.ok _ => ret + 1

/-- Embeds the explicit-guild branch of `CoreCog.sync`: run the loop over all
attempts starting from `ret = 0`, then send
`"Synced the tree to {ret}/{len(guilds)}."`. -/
def CoreCog_sync (attempts : List PushOutcome) : List Char :=
  "Synced the tree to ".data ++
    (Nat.repr (attempts.foldl guild_sync_step 0)).data ++
    "/".data ++ (Nat.repr attempts.length).data ++ ".".data

/-- The configuration failure raised by `assert_envs_exist`
(`MissingConfigurationException` in src/bot/__main__.py), carrying its
message. -/
structure MissingConfigurationException where
  msg : List Char
  deriving DecidableEq

/-- Python `str(value)` applied to a value that is already a string: the
identity conversion.  It never raises `ValueError`; the explicit error channel
is kept so the `except ValueError` branch of `assert_envs_exist` is
represented faithfully. -/
def strConvert (value : List Char) : Except Unit (List Char) :=
  Except.ok value

/-- A process environment: a partial map from variable names to values. -/
def EnvMap : Type :=
  List Char → Option (List Char)

/-- The declared environment entries of `assert_envs_exist`:
`(name, human label, converter)`; the one entry is
`("TOKEN", "The Bot Token", str)`. -/
def ENVS : List (List Char × List Char × (List Char → Except Unit (List Char))) :=
  [("TOKEN".data, "The Bot Token".data, strConvert)]

/-- One iteration of the loop in `assert_envs_exist`: build the identifier
`"{name}/{label}"`, look the variable up, fail if it is missing, try the
declared conversion, and fail if the conversion raises `ValueError`. -/
def checkEnvEntry (env : EnvMap)
    (e : List Char × List Char × (List Char → Except Unit (List Char))) :
    Except MissingConfigurationException Unit :=
  let ident := e.1 ++ "/".data ++ e.2.1
  match env e.1 with
  | none =>
    Except.error ⟨ident ++ " needs to be- defined".data⟩
  | some value =>
    match e.2.2 value with
    | Except.error _ =>
      Except.error ⟨ident ++ " is not the required type of <class \x27str\x27>".data⟩
    | Except.ok _ => Except.ok ()

/-- The loop of `assert_envs_exist` over a list of declared entries, stopping
at the first failure. -/
def checkEnvs (env : EnvMap) :
    List (List Char × List Char × (List Char → Except Unit (List Char))) →
    Except MissingConfigurationException Unit
  | [] => Except.ok ()
  | e :: rest =>
    match checkEnvEntry env e with
    | Except.error err => Except.error err
    | Except.ok _ => checkEnvs env rest

/-- Embeds `assert_envs_exist`: check every declared entry against the
process environment. -/
def assert_envs_exist (env : EnvMap) :
    Except MissingConfigurationException Unit :=
  checkEnvs env ENVS

/-- The failure modes of `run_bot` before the connection step: the
configuration check failed, or the `os.environ[...]` lookup raised
`KeyError`. -/
inductive StartupError
  | missingConfiguration (e : MissingConfigurationException)
  | keyError
  deriving DecidableEq

/-- What startup reaches after configuration succeeds: the connection step
`bot.start(token)` with the token read from the environment. -/
inductive StartupOutcome
  | connect (token : List Char)
  deriving DecidableEq

/-- Embeds `run_bot` up to the connection boundary: run `assert_envs_exist`,
read `os.environ["TOKEN"]`, and hand the token to the connection step.  The
network connection itself is the external collaborator and is not modelled. -/
def run_bot (env : EnvMap) : Except StartupError StartupOutcome :=
  match assert_envs_exist env with
  | Except.error e => Except.error (StartupError.missingConfiguration e)
  | Except.ok _ =>
    match env "TOKEN".data with
    | none => Except.error StartupError.keyError
    | some token => Except.ok (StartupOutcome.connect token)

theorem addChar_ne_nil (c : Char) (acc : List (List Char)) :
    addChar c acc ≠ [] := by
  unfold addChar
  split
  · exact List.cons_ne_nil _ _
  · match acc with
    | [] => exact List.cons_ne_nil _ _
    | l :: ls => exact List.cons_ne_nil _ _

theorem splitNl_ne_nil (cs : List Char) : splitNl cs ≠ [] := by
  match cs with
  | [] => exact List.cons_ne_nil _ _
  | c :: cs => exact addChar_ne_nil c _

theorem foldr_addChar_nil_cons (t : List Char) (ls : List (List Char)) :
    List.foldr addChar ([] :: ls) t = splitNl t ++ ls := by
  induction t with
  | nil => simp [splitNl]
  | cons c t ih =>
    show addChar c (List.foldr addChar ([] :: ls) t) =
      addChar c (List.foldr addChar [[]] t) ++ ls
    rw [ih]
    show addChar c (splitNl t ++ ls) = addChar c (splitNl t) ++ ls
    unfold addChar
    by_cases hc : c = '\n'
    · simp [hc]
    · simp only [if_neg hc]
      match h : splitNl t with
      | [] => exact absurd h (splitNl_ne_nil t)
      | l :: r => simp

theorem splitNl_append_nl (t r : List Char) :
    splitNl (t ++ '\n' :: r) = splitNl t ++ splitNl r := by
  show List.foldr addChar [[]] (t ++ '\n' :: r) = _
  rw [List.foldr_append]
  show List.foldr addChar (addChar '\n' (List.foldr addChar [[]] r)) t = _
  have h : addChar '\n' (List.foldr addChar [[]] r) =
      [] :: List.foldr addChar [[]] r := by
    unfold addChar
    simp
  rw [h]
  exact foldr_addChar_nil_cons t _

theorem splitNl_no_nl (t : List Char) (h : '\n' ∉ t) : splitNl t = [t] := by
  induction t with
  | nil => rfl
  | cons c t ih =>
    have hc : c ≠ '\n' := fun hc => h (by simp [hc])
    have ht : '\n' ∉ t := fun ht => h (List.mem_cons_of_mem _ ht)
    show addChar c (splitNl t) = [c :: t]
    rw [ih ht]
    unfold addChar
    simp [hc]

theorem splitNl_length_pos (cs : List Char) : 0 < (splitNl cs).length :=
  List.length_pos.mpr (splitNl_ne_nil cs)

theorem textLog_of_text_ne_nil (v : ComponentView) (h : v.text ≠ []) :
    textLog v = splitNl v.text := if_neg h

theorem button_callback_text (v : ComponentView) (name : List Char) :
    (v.button_callback name).text =
      v.text ++ '\n' :: (' ' :: (name ++ " was pressed!".data)) := rfl

theorem modal_on_submit_text (v : ComponentView) (value : List Char) :
    (v.modal_on_submit value).text =
      v.text ++ '\n' ::
        (' ' :: ("Modal was called and value entered is ".data ++ value)) := rfl

theorem textLog_button_callback (v : ComponentView) (name : List Char)
    (h : v.text ≠ []) :
    textLog (v.button_callback name) =
      textLog v ++ splitNl (' ' :: (name ++ " was pressed!".data)) := by
  have hne : (v.button_callback name).text ≠ [] := by
    rw [button_callback_text]
    exact fun hh => absurd (List.append_eq_nil.mp hh).2 (List.cons_ne_nil _ _)
  rw [textLog_of_text_ne_nil _ hne, textLog_of_text_ne_nil _ h,
    button_callback_text, splitNl_append_nl]

theorem textLog_modal_on_submit (v : ComponentView) (value : List Char)
    (h : v.text ≠ []) :
    textLog (v.modal_on_submit value) =
      textLog v ++
        splitNl (' ' :: ("Modal was called and value entered is ".data ++ value)) := by
  have hne : (v.modal_on_submit value).text ≠ [] := by
    rw [modal_on_submit_text]
    exact fun hh => absurd (List.append_eq_nil.mp hh).2 (List.cons_ne_nil _ _)
  rw [textLog_of_text_ne_nil _ hne, textLog_of_text_ne_nil _ h,
    modal_on_submit_text, splitNl_append_nl]

theorem button_callback_text_ne_nil (v : ComponentView) (name : List Char) :
    (v.button_callback name).text ≠ [] := by
  rw [button_callback_text]
  exact fun hh => absurd (List.append_eq_nil.mp hh).2 (List.cons_ne_nil _ _)

theorem modal_on_submit_text_ne_nil (v : ComponentView) (value : List Char) :
    (v.modal_on_submit value).text ≠ [] := by
  rw [modal_on_submit_text]
  exact fun hh => absurd (List.append_eq_nil.mp hh).2 (List.cons_ne_nil _ _)

theorem button_callback_children (v : ComponentView) (name : List Char) :
    (v.button_callback name).children = v.children := rfl

theorem modal_on_submit_children (v : ComponentView) (value : List Char) :
    (v.modal_on_submit value).children = v.children := rfl

theorem nl_not_mem_joinSep (sep : List Char) (hs : '\n' ∉ sep) :
    ∀ vs : List (List Char), (∀ x ∈ vs, '\n' ∉ x) → '\n' ∉ joinSep sep vs
  | [], _ => by simp [joinSep]
  | [x], h => by simpa [joinSep] using h x (by simp)
  | x :: y :: xs, h => by
    intro hmem
    simp only [joinSep] at hmem
    rcases List.mem_append.mp hmem with h1 | h2
    · rcases List.mem_append.mp h1 with ha | hb
      · exact h x (by simp) ha
      · exact hs hb
    · exact nl_not_mem_joinSep sep hs (y :: xs)
        (fun z hz => h z (List.mem_cons_of_mem _ hz)) h2

theorem add_button_text (v : ComponentView) (b : Widget) :
    (v.add_button_to_view b).text = v.text := by
  unfold ComponentView.add_button_to_view
  split <;> rfl

theorem add_button_mem_self (v : ComponentView) (b : Widget) :
    b ∈ (v.add_button_to_view b).children := by
  unfold ComponentView.add_button_to_view
  split
  · assumption
  · simp

theorem add_button_mem_mono (v : ComponentView) (b x : Widget)
    (h : x ∈ v.children) : x ∈ (v.add_button_to_view b).children := by
  unfold ComponentView.add_button_to_view
  split
  · exact h
  · exact List.mem_append_left _ h

theorem add_button_children_isPre (v : ComponentView) (b : Widget) :
    v.children <+: (v.add_button_to_view b).children := by
  unfold ComponentView.add_button_to_view
  split
  · exact ⟨[], by simp⟩
  · exact ⟨[b], rfl⟩

theorem add_button_nodup (v : ComponentView) (b : Widget)
    (h : v.children.Nodup) : (v.add_button_to_view b).children.Nodup := by
  unfold ComponentView.add_button_to_view
  split
  · exact h
  · next hb =>
    show (v.children ++ [b]).Nodup
    refine (List.nodup_append).mpr ⟨h, List.nodup_singleton b, ?_⟩
    intro x hx hxb
    rcases List.mem_singleton.mp hxb with rfl
    exact hb hx

theorem add_button_subset (v : ComponentView) (b : Widget)
    (S : List Widget) (h : v.children ⊆ S) (hb : b ∈ S) :
    (v.add_button_to_view b).children ⊆ S := by
  unfold ComponentView.add_button_to_view
  split
  · exact h
  · intro x hx
    rcases List.mem_append.mp hx with hx | hx
    · exact h hx
    · rcases List.mem_singleton.mp hx with rfl
      exact hb

theorem dropdown_selected_text (v : ComponentView) (values : List (List Char)) :
    (v.dropdown_selected values).text =
      joinSep ", ".data values ++ " selected in select option".data := by
  have h : v.dropdown_selected values =
      ((({ v with text := joinSep ", ".data values ++
          " selected in select option".data } : ComponentView).add_button_to_view
        Widget.button1).add_button_to_view Widget.button2).add_button_to_view
        Widget.button3 := rfl
  rw [h, add_button_text, add_button_text, add_button_text]

theorem dropdown_selected_text_ne_nil (v : ComponentView)
    (values : List (List Char)) : (v.dropdown_selected values).text ≠ [] := by
  rw [dropdown_selected_text]
  exact fun hh => absurd (List.append_eq_nil.mp hh).2 (by decide)

theorem dropdown_selected_text_no_nl (v : ComponentView)
    (values : List (List Char)) (hv : ∀ x ∈ values, '\n' ∉ x) :
    '\n' ∉ (v.dropdown_selected values).text := by
  rw [dropdown_selected_text]
  intro hmem
  rcases List.mem_append.mp hmem with h | h
  · exact nl_not_mem_joinSep ", ".data (by decide) values hv h
  · exact absurd h (by decide)

theorem textLog_dropdown_selected (v : ComponentView)
    (values : List (List Char)) (hv : ∀ x ∈ values, '\n' ∉ x) :
    textLog (v.dropdown_selected values) =
      [joinSep ", ".data values ++ " selected in select option".data] := by
  rw [textLog_of_text_ne_nil _ (dropdown_selected_text_ne_nil v values),
    splitNl_no_nl _ (dropdown_selected_text_no_nl v values hv),
    dropdown_selected_text]

theorem dropdown_selected_mem_button1 (v : ComponentView)
    (values : List (List Char)) :
    Widget.button1 ∈ (v.dropdown_selected values).children :=
  add_button_mem_mono _ _ _
    (add_button_mem_mono _ _ _ (add_button_mem_self _ _))

theorem dropdown_selected_mem_button2 (v : ComponentView)
    (values : List (List Char)) :
    Widget.button2 ∈ (v.dropdown_selected values).children :=
  add_button_mem_mono _ _ _ (add_button_mem_self _ _)

theorem dropdown_selected_mem_button3 (v : ComponentView)
    (values : List (List Char)) :
    Widget.button3 ∈ (v.dropdown_selected values).children :=
  add_button_mem_self _ _

/-- The children invariant maintained by every transition: the attached
widgets stay inside the fixed full set and stay duplicate-free. -/
def GoodChildren (v : ComponentView) : Prop :=
  v.children ⊆ ALL_WIDGETS ∧ v.children.Nodup

theorem goodChildren_init : GoodChildren ComponentView.init := by
  constructor
  · intro x hx
    rcases List.mem_singleton.mp hx with rfl
    simp [ALL_WIDGETS]
  · exact List.nodup_singleton _

theorem goodChildren_add_button (v : ComponentView) (b : Widget)
    (h : GoodChildren v) : GoodChildren (v.add_button_to_view b) := by
  refine ⟨add_button_subset v b _ h.1 ?_, add_button_nodup v b h.2⟩
  cases b <;> simp [ALL_WIDGETS]

theorem goodChildren_step (v : ComponentView) (e : Event)
    (h : GoodChildren v) : GoodChildren (stepView v e) := by
  cases e with
  | select values =>
    exact goodChildren_add_button _ _
      (goodChildren_add_button _ _ (goodChildren_add_button _ _ h))
  | press name => exact h
  | submit value => exact h

theorem step_children_isPre (v : ComponentView) (e : Event) :
    v.children <+: (stepView v e).children := by
  cases e with
  | select values =>
    show v.children <+: (v.dropdown_selected values).children
    have h : v.dropdown_selected values =
        ((({ v with text := joinSep ", ".data values ++
            " selected in select option".data } : ComponentView).add_button_to_view
          Widget.button1).add_button_to_view Widget.button2).add_button_to_view
          Widget.button3 := rfl
    rw [h]
    exact ((add_button_children_isPre
        ({ v with text := joinSep ", ".data values ++
          " selected in select option".data }) Widget.button1).trans
      (add_button_children_isPre _ Widget.button2)).trans
      (add_button_children_isPre _ Widget.button3)
  | press name =>
    show v.children <+: (v.button_callback name).children
    exact ⟨[], List.append_nil _⟩
  | submit value =>
    show v.children <+: (v.modal_on_submit value).children
    exact ⟨[], List.append_nil _⟩

theorem goodChildren_foldl (es : List Event) :
    ∀ v : ComponentView, GoodChildren v → GoodChildren (es.foldl stepView v) := by
  induction es with
  | nil => exact fun v h => h
  | cons e es ih =>
    intro v h
    exact ih _ (goodChildren_step v e h)

theorem goodChildren_runView (es : List Event) : GoodChildren (runView es) :=
  goodChildren_foldl es ComponentView.init goodChildren_init

theorem textLog_button_callback_length (v : ComponentView) (name : List Char)
    (h : v.text ≠ []) (hn : '\n' ∉ name) :
    (textLog (v.button_callback name)).length = (textLog v).length + 1 := by
  rw [textLog_button_callback v name h]
  have hline : '\n' ∉ ' ' :: (name ++ " was pressed!".data) := by
    intro hmem
    rcases List.mem_cons.mp hmem with hsp | hmem
    · exact absurd hsp (by decide)
    · rcases List.mem_append.mp hmem with hmem | hmem
      · exact hn hmem
      · exact absurd hmem (by decide)
  rw [splitNl_no_nl _ hline]
  simp

theorem foldl_button_callback_length (names : List (List Char)) :
    ∀ v : ComponentView, v.text ≠ [] → (∀ n ∈ names, '\n' ∉ n) →
      (textLog (names.foldl ComponentView.button_callback v)).length =
        (textLog v).length + names.length := by
  induction names with
  | nil => intro v _ _; simp
  | cons n ns ih =>
    intro v hv hn
    rw [List.foldl_cons,
      ih (v.button_callback n) (button_callback_text_ne_nil v n)
        (fun z hz => hn z (List.mem_cons_of_mem _ hz)),
      textLog_button_callback_length v n hv (hn n (List.mem_cons_self _ _))]
    simp [List.length_cons]
    omega

theorem foldl_guild_sync_step (l : List PushOutcome) :
    ∀ r : Nat, l.foldl guild_sync_step r = r + l.count PushOutcome.ok := by
  induction l with
  | nil => intro r; simp
  | cons o l ih =>
    intro r
    rw [List.foldl_cons, ih]
    cases o with
    | ok =>
      simp only [guild_sync_step, tree_sync, List.count_cons]
      simp
      omega
    | httpError =>
      simp only [guild_sync_step, tree_sync, List.count_cons]
      simp

theorem assert_envs_exist_of_none (env : EnvMap)
    (h : env "TOKEN".data = none) :
    assert_envs_exist env =
      Except.error ⟨"TOKEN/The Bot Token needs to be- defined".data⟩ := by
  have hmsg : ("TOKEN".data ++ "/".data ++ "The Bot Token".data) ++
      " needs to be- defined".data =
      "TOKEN/The Bot Token needs to be- defined".data := by decide
  simp [assert_envs_exist, ENVS, checkEnvs, checkEnvEntry, h, hmsg]

theorem assert_envs_exist_of_some (env : EnvMap) (t : List Char)
    (h : env "TOKEN".data = some t) : assert_envs_exist env = Except.ok () := by
  simp [assert_envs_exist, ENVS, checkEnvs, checkEnvEntry, h, strConvert]

theorem run_bot_of_none (env : EnvMap) (h : env "TOKEN".data = none) :
    run_bot env = Except.error (StartupError.missingConfiguration
      ⟨"TOKEN/The Bot Token needs to be- defined".data⟩) := by
  simp [run_bot, assert_envs_exist_of_none env h]

theorem run_bot_of_some (env : EnvMap) (t : List Char)
    (h : env "TOKEN".data = some t) :
    run_bot env = Except.ok (StartupOutcome.connect t) := by
  simp [run_bot, assert_envs_exist_of_some env t h, h]

/-- C1 counterexample: in the `start → select(["Value1","Value2"]) →
press("Button1")` run, the second log line is `" Button1 was pressed!"` with a
leading space (the handler appends `"\n {name} was pressed!"`), so it is not
exactly `"Button1 was pressed!"` as the claim states. -/
theorem claim_C1_counterexample :
    (textLog ((ComponentView.init.dropdown_selected
        ["Value1".data, "Value2".data]).button_callback "Button1".data))[1]? =
      some " Button1 was pressed!".data ∧
    " Button1 was pressed!".data ≠ "Button1 was pressed!".data := by
  decide

/-- C1 (amended): the fresh state has an empty text log and no attached
buttons; after `select(["Value1","Value2"])` the log is exactly the single
line `"Value1, Value2 selected in select option"` and all three buttons are
attached; a subsequent `press("Button1")` makes the second line exactly
`" Button1 was pressed!"` (with the leading space the handler inserts); a
subsequent `submit_modal("hello")` adds a third line containing `"hello"`. -/
theorem claim_C1 :
    textLog ComponentView.init = [] ∧
    Widget.button1 ∉ ComponentView.init.children ∧
    Widget.button2 ∉ ComponentView.init.children ∧
    Widget.button3 ∉ ComponentView.init.children ∧
    textLog (ComponentView.init.dropdown_selected
        ["Value1".data, "Value2".data]) =
      ["Value1, Value2 selected in select option".data] ∧
    Widget.button1 ∈ (ComponentView.init.dropdown_selected
        ["Value1".data, "Value2".data]).children ∧
    Widget.button2 ∈ (ComponentView.init.dropdown_selected
        ["Value1".data, "Value2".data]).children ∧
    Widget.button3 ∈ (ComponentView.init.dropdown_selected
        ["Value1".data, "Value2".data]).children ∧
    textLog ((ComponentView.init.dropdown_selected
        ["Value1".data, "Value2".data]).button_callback "Button1".data) =
      ["Value1, Value2 selected in select option".data,
        " Button1 was pressed!".data] ∧
    (textLog (((ComponentView.init.dropdown_selected
        ["Value1".data, "Value2".data]).button_callback
        "Button1".data).modal_on_submit "hello".data)).length = 3 ∧
    "hello".data <:+:
      ((textLog (((ComponentView.init.dropdown_selected
        ["Value1".data, "Value2".data]).button_callback
        "Button1".data).modal_on_submit "hello".data))[2]?.getD []) := by
  decide

/-- C2 counterexample: a dropdown re-selection resets the text, so after
`select(["Value1"]) → press("Button1")` (two log lines) a further
`select(["Value1"])` shrinks the log back to one line, violating the claimed
monotonicity of every transition. -/
theorem claim_C2_counterexample :
    (textLog (((ComponentView.init.dropdown_selected
        ["Value1".data]).button_callback
        "Button1".data).dropdown_selected ["Value1".data])).length <
      (textLog ((ComponentView.init.dropdown_selected
        ["Value1".data]).button_callback "Button1".data)).length := by
  decide

/-- C2 (amended): the `press` and `submit_modal` transitions never decrease
the length of `text_log`; the `select` transition is excluded because it
resets the log to the single selection line and can shrink it. -/
theorem claim_C2 (v : ComponentView) (name value : List Char) :
    (textLog v).length ≤ (textLog (v.button_callback name)).length ∧
    (textLog v).length ≤ (textLog (v.modal_on_submit value)).length := by
  constructor
  · by_cases h : v.text = []
    · simp [textLog, h]
    · rw [textLog_button_callback v name h]
      simp only [List.length_append]
      exact Nat.le_add_right _ _
  · by_cases h : v.text = []
    · simp [textLog, h]
    · rw [textLog_modal_on_submit v value h]
      simp only [List.length_append]
      exact Nat.le_add_right _ _

/-- C3: from any state, `select` with a non-empty list of option values sets
the text log to exactly one line — the values joined by `", "` followed by
`" selected in select option"` — and afterwards all three buttons are
attached. -/
theorem claim_C3 (v : ComponentView) (values : List (List Char))
    (_hne : values ≠ []) (hv : ∀ x ∈ values, x ∈ SELECT_OPTION_VALUES) :
    textLog (v.dropdown_selected values) =
      [joinSep ", ".data values ++ " selected in select option".data] ∧
    Widget.button1 ∈ (v.dropdown_selected values).children ∧
    Widget.button2 ∈ (v.dropdown_selected values).children ∧
    Widget.button3 ∈ (v.dropdown_selected values).children := by
  have hopts : ∀ y ∈ SELECT_OPTION_VALUES, '\n' ∉ y := by decide
  have hnl : ∀ x ∈ values, '\n' ∉ x := fun x hx => hopts x (hv x hx)
  exact ⟨textLog_dropdown_selected v values hnl,
    dropdown_selected_mem_button1 v values,
    dropdown_selected_mem_button2 v values,
    dropdown_selected_mem_button3 v values⟩

/-- C3 witness: the theorem applied to a fresh view and the selection
`["Value1"]`. -/
theorem claim_C3_witness :
    (["Value1".data] : List (List Char)) ≠ [] ∧
    (∀ x ∈ (["Value1".data] : List (List Char)), x ∈ SELECT_OPTION_VALUES) ∧
    (textLog (ComponentView.init.dropdown_selected ["Value1".data]) =
      [joinSep ", ".data ["Value1".data] ++
        " selected in select option".data] ∧
    Widget.button1 ∈
      (ComponentView.init.dropdown_selected ["Value1".data]).children ∧
    Widget.button2 ∈
      (ComponentView.init.dropdown_selected ["Value1".data]).children ∧
    Widget.button3 ∈
      (ComponentView.init.dropdown_selected ["Value1".data]).children) :=
  ⟨by decide, by decide,
    claim_C3 ComponentView.init ["Value1".data] (by decide) (by decide)⟩

/-- C4: after any event sequence from a fresh view, the attached widgets are
contained in the fixed set (dropdown plus three buttons), contain no
duplicates (attach is idempotent), and every further transition extends the
widget list without removing anything (the old list is a prefix of the new
one). -/
theorem claim_C4 (es : List Event) (e : Event) :
    (runView es).children ⊆ ALL_WIDGETS ∧
    (runView es).children.Nodup ∧
    (runView es).children <+: (stepView (runView es) e).children :=
  ⟨(goodChildren_runView es).1, (goodChildren_runView es).2,
    step_children_isPre (runView es) e⟩

/-- C5: after a dropdown selection, a sequence of N presses of the view's
buttons (repeats allowed, no intervening select or modal submission) grows the
text log by exactly N lines. -/
theorem claim_C5 (v : ComponentView) (values names : List (List Char))
    (h : ∀ n ∈ names, n ∈ BUTTON_NAMES) :
    (textLog (names.foldl ComponentView.button_callback
        (v.dropdown_selected values))).length =
      (textLog (v.dropdown_selected values)).length + names.length := by
  have hbtn : ∀ y ∈ BUTTON_NAMES, '\n' ∉ y := by decide
  exact foldl_button_callback_length names (v.dropdown_selected values)
    (dropdown_selected_text_ne_nil v values)
    (fun n hn => hbtn n (h n hn))

/-- C5 witness: two presses of `Button1` after selecting `["Value1"]` add
exactly two lines. -/
theorem claim_C5_witness :
    (∀ n ∈ (["Button1".data, "Button1".data] : List (List Char)),
      n ∈ BUTTON_NAMES) ∧
    (textLog ((["Button1".data, "Button1".data] : List (List Char)).foldl
        ComponentView.button_callback
        (ComponentView.init.dropdown_selected ["Value1".data]))).length =
      (textLog (ComponentView.init.dropdown_selected ["Value1".data])).length +
        (["Button1".data, "Button1".data] : List (List Char)).length :=
  ⟨by decide,
    claim_C5 ComponentView.init ["Value1".data]
      ["Button1".data, "Button1".data] (by decide)⟩

/-- C6: a modal submission performed after a press appends exactly one line to
the text log, that line contains the submitted value verbatim, and the
attached widgets are unchanged both from before the submission and from before
the triggering press.  The submitted value comes from a single-line text
input, so it contains no newline. -/
theorem claim_C6 (v : ComponentView) (name value : List Char)
    (hval : '\n' ∉ value) :
    textLog ((v.button_callback name).modal_on_submit value) =
      textLog (v.button_callback name) ++
        [' ' :: ("Modal was called and value entered is ".data ++ value)] ∧
    value <:+:
      (' ' :: ("Modal was called and value entered is ".data ++ value)) ∧
    ((v.button_callback name).modal_on_submit value).children =
      (v.button_callback name).children ∧
    ((v.button_callback name).modal_on_submit value).children = v.children := by
  refine ⟨?_, ?_, rfl, rfl⟩
  · rw [textLog_modal_on_submit (v.button_callback name) value
      (button_callback_text_ne_nil v name), splitNl_no_nl]
    intro hmem
    rcases List.mem_cons.mp hmem with hsp | hmem
    · exact absurd hsp (by decide)
    · rcases List.mem_append.mp hmem with hmem | hmem
      · exact absurd hmem (by decide)
      · exact hval hmem
  · exact ⟨' ' :: "Modal was called and value entered is ".data, [], by simp⟩

/-- C6 witness: submitting `"hello"` after pressing `Button1` on a fresh
view. -/
theorem claim_C6_witness :
    ('\n' ∉ "hello".data) ∧
    (textLog ((ComponentView.init.button_callback
        "Button1".data).modal_on_submit "hello".data) =
      textLog (ComponentView.init.button_callback "Button1".data) ++
        [' ' :: ("Modal was called and value entered is ".data ++
          "hello".data)] ∧
    "hello".data <:+:
      (' ' :: ("Modal was called and value entered is ".data ++
        "hello".data)) ∧
    ((ComponentView.init.button_callback
        "Button1".data).modal_on_submit "hello".data).children =
      (ComponentView.init.button_callback "Button1".data).children ∧
    ((ComponentView.init.button_callback
        "Button1".data).modal_on_submit "hello".data).children =
      ComponentView.init.children) :=
  ⟨by decide,
    claim_C6 ComponentView.init "Button1".data "hello".data (by decide)⟩

/-- C7: over an explicit non-empty list of target guilds where some attempts
succeed and the rest fail with a platform error, the command consumes every
attempt (failures are skipped inside the loop body, so nothing aborts and no
exception escapes), and the reported message is exactly
`"Synced the tree to M/N."` with M the number of successes and N the number of
attempts. -/
theorem claim_C7 (attempts : List PushOutcome) (_h : attempts ≠ []) :
    CoreCog_sync attempts =
      "Synced the tree to ".data ++
        (Nat.repr (attempts.count PushOutcome.ok)).data ++ "/".data ++
        (Nat.repr attempts.length).data ++ ".".data := by
  unfold CoreCog_sync
  rw [foldl_guild_sync_step attempts 0]
  simp

/-- C7 witness: three attempts with one failure report the tally 2/3. -/
theorem claim_C7_witness :
    ([PushOutcome.ok, PushOutcome.httpError, PushOutcome.ok] :
      List PushOutcome) ≠ [] ∧
    CoreCog_sync [PushOutcome.ok, PushOutcome.httpError, PushOutcome.ok] =
      "Synced the tree to ".data ++
        (Nat.repr (([PushOutcome.ok, PushOutcome.httpError, PushOutcome.ok] :
          List PushOutcome).count PushOutcome.ok)).data ++ "/".data ++
        (Nat.repr ([PushOutcome.ok, PushOutcome.httpError, PushOutcome.ok] :
          List PushOutcome).length).data ++ ".".data :=
  ⟨by decide,
    claim_C7 [PushOutcome.ok, PushOutcome.httpError, PushOutcome.ok]
      (by decide)⟩

/-- C8: with no `TOKEN` variable, startup fails with a
`MissingConfigurationException` whose message contains both `"TOKEN"` and
`"The Bot Token"`, and the connection step is never reached; with a non-empty
token present, the configuration check passes and startup reaches the
connection step with that token. -/
theorem claim_C8 (env : EnvMap) :
    (env "TOKEN".data = none →
      ∃ e : MissingConfigurationException,
        run_bot env = Except.error (StartupError.missingConfiguration e) ∧
        "TOKEN".data <:+: e.msg ∧ "The Bot Token".data <:+: e.msg) ∧
    (∀ t : List Char, env "TOKEN".data = some t → t ≠ [] →
      run_bot env = Except.ok (StartupOutcome.connect t)) := by
  constructor
  · intro h
    exact ⟨⟨"TOKEN/The Bot Token needs to be- defined".data⟩,
      run_bot_of_none env h, by decide, by decide⟩
  · intro t h _
    exact run_bot_of_some env t h

/-- C8 witness: the empty environment fails before connecting; an environment
binding `TOKEN` to `"abc"` reaches the connection step with `"abc"`. -/
theorem claim_C8_witness :
    (∃ e : MissingConfigurationException,
      run_bot (fun _ => none) =
        Except.error (StartupError.missingConfiguration e) ∧
      "TOKEN".data <:+: e.msg ∧ "The Bot Token".data <:+: e.msg) ∧
    run_bot (fun n => if n = "TOKEN".data then some "abc".data else none) =
      Except.ok (StartupOutcome.connect "abc".data) :=
  ⟨(claim_C8 (fun _ => none)).1 rfl,
    (claim_C8 (fun n => if n = "TOKEN".data then some "abc".data else none)).2
      "abc".data (by decide) (by decide)⟩

/-- An environment whose `TOKEN` variable is present but holds the empty
string. -/
def envEmptyToken : EnvMap :=
  fun n => if n = "TOKEN".data then some [] else none

/-- C9 counterexample: with `TOKEN` bound to the empty string the
configuration check does not fail — `assert_envs_exist` checks presence and
convertibility only, not non-emptiness, contradicting the claim that the
check fails and the process does not start. -/
theorem claim_C9_counterexample :
    ¬ ∃ e : MissingConfigurationException,
        assert_envs_exist envEmptyToken = Except.error e := by
  intro hex
  rcases hex with ⟨e, h⟩
  have hok : assert_envs_exist envEmptyToken = Except.ok () := rfl
  rw [hok] at h
  exact Except.noConfusion h

/-- C9 (amended): with `TOKEN` present but equal to the empty string, the
configuration check passes and startup proceeds to the connection step with
the empty token — the loader validates presence, not non-emptiness. -/
theorem claim_C9 :
    assert_envs_exist envEmptyToken = Except.ok () ∧
    run_bot envEmptyToken = Except.ok (StartupOutcome.connect []) :=
  ⟨rfl, rfl⟩

/-- C10: `str` applied to an environment string never raises `ValueError`, so
the "is not the required type" branch of `assert_envs_exist` is unreachable:
any configuration failure carries the missing-variable message. -/
theorem claim_C10 (env : EnvMap) (e : MissingConfigurationException)
    (h : assert_envs_exist env = Except.error e) :
    (∀ value : List Char, strConvert value = Except.ok value) ∧
    e.msg = "TOKEN/The Bot Token needs to be- defined".data := by
  refine ⟨fun value => rfl, ?_⟩
  cases hv : env "TOKEN".data with
  | none =>
    rw [assert_envs_exist_of_none env hv] at h
    have h2 : (⟨"TOKEN/The Bot Token needs to be- defined".data⟩ :
        MissingConfigurationException) = e := by injection h
    rw [← h2]
  | some t =>
    rw [assert_envs_exist_of_some env t hv] at h
    exact Except.noConfusion h

/-- C10 witness: the theorem applied to the empty environment, whose failure
message is the missing-variable one. -/
theorem claim_C10_witness :
    (∀ value : List Char, strConvert value = Except.ok value) ∧
    (⟨"TOKEN/The Bot Token needs to be- defined".data⟩ :
        MissingConfigurationException).msg =
      "TOKEN/The Bot Token needs to be- defined".data :=
  claim_C10 (fun _ => none)
    ⟨"TOKEN/The Bot Token needs to be- defined".data⟩ rfl
